import Mathlib

/-!
Shallow embedding of the Veriteem remote-wallet backend (package
`remotewallet`): the per-wallet state machine (`wallet.Open`, `wallet.Close`,
`wallet.close`, `wallet.SignTx`, `wallet.Contains`, `wallet.heartbeat`), the
registry (`RemoteWallet.refreshWallets`, `Wallets`, `Subscribe`, `updater`)
and the concrete driver (`VeriteemDriver`).

Go machine-level details are modelled as follows: addresses are their byte
sequences (`common.Address.Bytes()`); Go's single `error` interface becomes
one inductive `Err` (opaque transport errors get a numeric code); `nil`
pointers/maps/channels become `Option`/`Bool`; the vendor driver is passed
to the wallet operations as an explicit function argument; time instants are
naturals and `time.Since` is truncated subtraction.
-/

namespace Veriteem

/-- An Ethereum address, modelled as the byte sequence `Address.Bytes()`
returns (20 bytes in the real system; the lifecycle code never depends on
the length). -/
abbrev Address := List Nat

/-- `common.Address{}`, the all-zero address returned on driver error paths. -/
def zeroAddress : Address := List.replicate 20 0

/-- `accounts.Account`: the lifecycle code only ever reads its address. -/
structure Account where
  address : Address
deriving DecidableEq, Repr

/-- A derivation path (`accounts.DerivationPath`), an opaque list of indices
for this device class. -/
abbrev DerivationPath := List Nat

/-- The single Go `error` interface, covering the sentinel errors of the
`accounts` package, the ledger driver's sentinels, the formatted
signer-mismatch error of `wallet.SignTx`, and opaque transport/driver
errors (coded by a natural number). -/
inductive Err where
  | alreadyOpen
  | notSupported
  | unknownAccount
  | signerMismatch (expected got : Address)
  | invalidVersionReply
  | invalidHeader
  | transport (code : Nat)
deriving DecidableEq, Repr

/-- The in-memory fields of `wallet` that the state machine transitions:
the cached account list, the derivation-path map (`nil` ⇔ `none`; a fresh
`make(map...)` is `some []`), and whether the `healthQuit` handshake channel
is non-nil. -/
structure WalletState where
  accounts : List Account
  paths : Option (List (Address × DerivationPath))
  healthQuit : Bool
deriving DecidableEq, Repr

namespace wallet

/-- `wallet.Contains`: linear scan of the cached account list comparing
`bytes.Equal(account.Address.Bytes(), acct.Address.Bytes())`. -/
def Contains (w : WalletState) (account : Account) : Bool :=
  w.accounts.any fun acct => decide (acct.address = account.address)

/-- `wallet.Open`: refuses with `ErrWalletAlreadyOpen` when `paths` is
non-nil; otherwise delegates to the driver's `Open` (its result is the
`driverOpen` argument, `none` meaning success) and on success initializes
`paths` to a fresh empty map and creates the `healthQuit` channel. -/
def Open (w : WalletState) (driverOpen : Option Err) : WalletState × Option Err :=
  if w.paths.isSome then (w, some Err.alreadyOpen)
  else
    match driverOpen with
    | some e => (w, some e)
    | none => ({ w with paths := some [], healthQuit := true }, none)

/-- `wallet.close` (the internal teardown; state lock assumed held): clears
`accounts` and `paths`, invokes the driver's `Close` and discards its
result (`driverClose`), and returns `nil` unconditionally. -/
def closeInternal (w : WalletState) (driverClose : Option Err) :
    WalletState × Option Err :=
  let _ := driverClose
  ({ w with accounts := [], paths := none }, none)

/-- `wallet.Close`: when `healthQuit` is non-nil it performs the heartbeat
handshake and saves the reply as `herr` (the reply is the `heartbeatReply`
argument); then it clears `healthQuit`, runs the internal teardown, and
returns the teardown error if any, else `herr` if any, else `nil`. -/
def Close (w : WalletState) (heartbeatReply : Option Err)
    (driverClose : Option Err) : WalletState × Option Err :=
  let herr := if w.healthQuit then heartbeatReply else none
  let w1 := { w with healthQuit := false }
  let res := closeInternal w1 driverClose
  (res.1,
    match res.2 with
    | some e => some e
    | none => herr)

/-- `wallet.SignTx`: under a shared state lock, fails with
`ErrUnknownAccount` when `Contains` is false; otherwise asks the driver to
sign (`driverSign`, returning the sender address, the possibly-signed
transaction and an error), propagates a driver error, rejects a sender that
differs from the requested account's address with the formatted
signer-mismatch error, and otherwise returns the signed transaction. -/
def SignTx (Tx : Type) (w : WalletState)
    (driverSign : Account → Tx → Int → Address × Option Tx × Option Err)
    (account : Account) (tx : Tx) (chainID : Int) : Option Tx × Option Err :=
  if Contains w account = false then (none, some Err.unknownAccount)
  else
    match driverSign account tx chainID with
    | (sender, signedTx, err) =>
      match err with
      | some e => (none, some e)
      | none =>
        if sender ≠ account.address then
          (none, some (Err.signerMismatch account.address sender))
        else (signedTx, none)

/-- One iteration's stimulus for the heartbeat loop's `select`: either a
termination request arrives on `healthQuit`, or the heartbeat cycle timer
fires and the driver's `Heartbeat` call returns `hbErr`. -/
inductive HbInput where
  | quitReq
  | tick (hbErr : Option Err)
deriving DecidableEq, Repr

/-- The observable outcome of running the heartbeat loop on a finite
stimulus list: still looping (`running`), or it has sent `reply` on the
requester's channel and returned (`replied`). -/
inductive HbOutcome where
  | running (w : WalletState)
  | replied (w : WalletState) (reply : Option Err)
deriving DecidableEq, Repr

/-- `wallet.heartbeat`: loops while `errc == nil && err == nil`. A
termination request sets `errc` and exits the loop with `err` still `nil`
(the trailing `if err != nil` wait is dead code since `err` is reset each
iteration), then sends `err` on the reply channel exactly once. A tick with
a failing driver heartbeat tears the wallet down via `wallet.close` (under
the exclusive lock) and the error is then discarded (`err = nil`). -/
def heartbeat (w : WalletState) : List HbInput → HbOutcome
  | [] => HbOutcome.running w
  | HbInput.quitReq :: _ => HbOutcome.replied w none
  | HbInput.tick hbErr :: rest =>
    match hbErr with
    | some _ => heartbeat (closeInternal w none).1 rest
    | none => heartbeat w rest

/-- `wallet.Close` composed with the heartbeat task it hands a reply
channel to: when `healthQuit` is non-nil, Close sends the termination
request (appended after the `pending` stimuli the task sees first) and
blocks until the task replies — `none` models Close still blocked. Only
after the reply does it clear `healthQuit`, run the teardown on the state
the task left behind, and aggregate the errors as in `wallet.Close`. -/
def CloseRun (w : WalletState) (pending : List HbInput)
    (driverClose : Option Err) : Option (WalletState × Option Err) :=
  if w.healthQuit then
    match heartbeat w (pending ++ [HbInput.quitReq]) with
    | HbOutcome.running _ => none
    | HbOutcome.replied w1 herr =>
      let w2 := { w1 with healthQuit := false }
      let res := closeInternal w2 driverClose
      some (res.1,
        match res.2 with
        | some e => some e
        | none => herr)
  else
    let w2 := { w with healthQuit := false }
    let res := closeInternal w2 driverClose
    some (res.1, res.2)

end wallet

/-! ## The registry (`RemoteWallet`) -/

/-- `VeriteemSigningServer`, the module-level signing-service address. -/
def VeriteemSigningServer : String := "http://13.59.10.65:80"

/-- `RemoteWalletScheme`, the protocol scheme prefixing wallet URLs. -/
def RemoteWalletScheme : String := "remotewallet"

/-- `refreshThrottling`, the minimum time between wallet refreshes
(500 time units — milliseconds in the source). -/
def refreshThrottling : Nat := 500

/-- `refreshCycle`, the sleep between updater iterations (60 time units —
seconds in the source). -/
def refreshCycle : Nat := 60

/-- `heartbeatCycle`, the wait between wallet health checks (60 time
units — seconds in the source). -/
def heartbeatCycle : Nat := 60

/-- A tracked wallet as the registry observes it: its immutable URL
(scheme and path fixed at construction). -/
structure RWallet where
  urlScheme : String
  urlPath : String
deriving DecidableEq, Repr

/-- `accounts.WalletEvent` kinds. -/
inductive EventKind where
  | arrived
  | dropped
  | opened
  | closed
deriving DecidableEq, Repr

/-- `accounts.WalletEvent`: a wallet reference plus an event kind. -/
structure WalletEvent where
  wallet : RWallet
  kind : EventKind
deriving DecidableEq, Repr

/-- The `RemoteWallet` registry fields the claims are about: the
configured scheme, the configured signing server's address
(`signingServer.serverURL`), the last-refresh instant, the tracked wallet
list, the log of events sent on `updateFeed`, the `updating` flag and the
live-subscription count (`updateScope.Count()`). -/
structure RegistryState where
  scheme : String
  serverURL : String
  refreshed : Nat
  wallets : List RWallet
  sentEvents : List WalletEvent
  updating : Bool
  subscriberCount : Nat
deriving DecidableEq, Repr

namespace RemoteWallet

/-- `RemoteWallet.refreshWallets` at instant `now`: returns immediately
when the elapsed time since the last refresh is under `refreshThrottling`;
otherwise, if the tracked list is empty, builds the single wallet with URL
`Scheme: remoteWallet.scheme, Path: VeriteemSigningServer` and queues one
`Arrived` event for it, then unconditionally stamps `refreshed = now` and
fires the queued events on the feed. -/
def refreshWallets (r : RegistryState) (now : Nat) : RegistryState :=
  let elapsed := now - r.refreshed
  if elapsed < refreshThrottling then r
  else
    let fresh : RWallet := { urlScheme := r.scheme, urlPath := VeriteemSigningServer }
    let created :=
      if r.wallets.length = 0 then
        ([fresh], [({ wallet := fresh, kind := EventKind.arrived } : WalletEvent)])
      else (r.wallets, [])
    { r with
      wallets := created.1
      refreshed := now
      sentEvents := r.sentEvents ++ created.2 }

/-- `RemoteWallet.Wallets`: refreshes, then returns a defensive copy of the
tracked list (the copy is the same list value in this embedding). -/
def Wallets (r : RegistryState) (now : Nat) : RegistryState × List RWallet :=
  let r1 := refreshWallets r now
  (r1, r1.wallets)

end RemoteWallet

/-- A registry together with the number of live updater (background
refresh) tasks, for the lock-serialized transition system. -/
structure RegConc where
  reg : RegistryState
  alive : Nat
deriving DecidableEq, Repr

/-- The lock-serialized atomic transitions of the registry.
`subscribeStart`/`subscribeRunning` are `RemoteWallet.Subscribe` (track the
new subscription; start an updater task and set `updating` only when it is
false). `unsubscribe` is a subscriber dropping out of `updateScope`.
`updaterContinue`/`updaterStop` are one iteration of
`RemoteWallet.updater`: sleep, `refreshWallets`, then under the exclusive
lock check `updateScope.Count()`; on zero, clear `updating` and return,
otherwise loop. -/
inductive RegStep : RegConc → RegConc → Prop where
  | subscribeStart (s : RegConc) :
      s.reg.updating = false →
      RegStep s ⟨{ s.reg with
        subscriberCount := s.reg.subscriberCount + 1, updating := true },
        s.alive + 1⟩
  | subscribeRunning (s : RegConc) :
      s.reg.updating = true →
      RegStep s ⟨{ s.reg with
        subscriberCount := s.reg.subscriberCount + 1 }, s.alive⟩
  | unsubscribe (s : RegConc) :
      0 < s.reg.subscriberCount →
      RegStep s ⟨{ s.reg with
        subscriberCount := s.reg.subscriberCount - 1 }, s.alive⟩
  | updaterContinue (s : RegConc) (now : Nat) :
      0 < s.alive →
      (RemoteWallet.refreshWallets s.reg now).subscriberCount ≠ 0 →
      RegStep s ⟨RemoteWallet.refreshWallets s.reg now, s.alive⟩
  | updaterStop (s : RegConc) (now : Nat) :
      0 < s.alive →
      (RemoteWallet.refreshWallets s.reg now).subscriberCount = 0 →
      RegStep s ⟨{ RemoteWallet.refreshWallets s.reg now with
        updating := false }, s.alive - 1⟩

/-- Registry states reachable from construction: `newRemoteWallet` builds
the registry with the zero-valued `updating` flag, no updater task, and
runs a first (task-free) `refreshWallets`, which never touches `updating`
or the subscription scope. -/
inductive RegReachable : RegConc → Prop where
  | init (reg0 : RegistryState) :
      reg0.updating = false → reg0.subscriberCount = 0 →
      RegReachable ⟨reg0, 0⟩
  | step (s t : RegConc) : RegReachable s → RegStep s t → RegReachable t

/-! ## The concrete driver (`VeriteemDriver`) -/

/-- The `VeriteemDriver` fields: the cached signing-server app version and
the sticky failure marker. -/
structure VeriteemDriverState where
  version : Nat × Nat × Nat
  failure : Option Err
deriving DecidableEq, Repr

namespace VeriteemDriver

/-- `VeriteemDriver.ledgerVersion`: a stub that returns version
`[3]byte(1, 0, 0)` and no error without contacting the server. -/
def ledgerVersion (d : VeriteemDriverState) : (Nat × Nat × Nat) × Option Err :=
  let _ := d
  ((1, 0, 0), none)

/-- `VeriteemDriver.Heartbeat`: calls `ledgerVersion`; on an error other
than `errLedgerInvalidVersionReply` it records the failure and returns the
error, otherwise it returns `nil`. -/
def Heartbeat (d : VeriteemDriverState) : VeriteemDriverState × Option Err :=
  match ledgerVersion d with
  | (_, some e) =>
    if e ≠ Err.invalidVersionReply then ({ d with failure := some e }, some e)
    else (d, none)
  | (_, none) => (d, none)

/-- `VeriteemDriver.Open`: resolves `ledgerVersion`; on failure resets
the cached version to zero and returns the error, on success caches it. -/
def Open (d : VeriteemDriverState) : VeriteemDriverState × Option Err :=
  match ledgerVersion d with
  | (_, some e) => ({ d with version := (0, 0, 0) }, some e)
  | (v, none) => ({ d with version := v }, none)

/-- A serialized JSON payload, as an opaque byte list. -/
abbrev Payload := List Nat

/-- The `JsonRx` reply of the signing server: the R, S, V signature
components and the transaction hash, as hex strings. -/
structure JsonRxT where
  r : String
  s : String
  v : String
  hash : String
deriving DecidableEq, Repr

/-- The fallible collaborators `VeriteemDriver.SignTx` composes, in call
order: `json.Marshal` of the request built from the account and the
transaction, the signing server's `SignTx` exchange, `json.Unmarshal` of
the response into `JsonRx`, `json.Marshal` of the `JsonSign` record rebuilt
from the reply and the transaction (whose error the source ignores), and
`tx.UnmarshalJSON` of those bytes producing the signed transaction. -/
structure SignEnv (Tx : Type) where
  marshalReq : Account → Tx → Int → Except Err Payload
  serverSign : Payload → Except Err Payload
  unmarshalRx : Payload → Except Err JsonRxT
  marshalSigned : JsonRxT → Tx → Int → Payload
  txUnmarshal : Tx → Payload → Except Err Tx

/-- `VeriteemDriver.SignTx`: marshals the request, sends it to the signing
server, unpacks the R/S/V reply, rebuilds the signed transaction from it;
every failure path returns the zero address, no transaction, and the error,
and the success path returns `account.Address` together with the rebuilt
transaction. -/
def SignTx (Tx : Type) (env : SignEnv Tx) (account : Account) (tx : Tx)
    (chainID : Int) : Address × Option Tx × Option Err :=
  match env.marshalReq account tx chainID with
  | Except.error e => (zeroAddress, none, some e)
  | Except.ok jsonPayload =>
    match env.serverSign jsonPayload with
    | Except.error e => (zeroAddress, none, some e)
    | Except.ok jsonResponse =>
      match env.unmarshalRx jsonResponse with
      | Except.error e => (zeroAddress, none, some e)
      | Except.ok jsonrx =>
        match env.txUnmarshal tx (env.marshalSigned jsonrx tx chainID) with
        | Except.error e => (zeroAddress, none, some e)
        | Except.ok signedTx => (account.address, some signedTx, none)

end VeriteemDriver

/-! ## Claims -/

/-- C1: for every wallet, account, transaction and chain id, when the
requested account is cached and the driver's sign operation returns
without error, `wallet.SignTx` returns the signer-mismatch error and no
transaction whenever the returned signer address differs from the
account's address (the driver's signed transaction is discarded), and it
returns the driver's signed transaction exactly when the signer address
equals the account's address. -/
theorem signTx_signer_mismatch_guard (Tx : Type) (w : WalletState)
    (driverSign : Account → Tx → Int → Address × Option Tx × Option Err)
    (account : Account) (tx : Tx) (chainID : Int)
    (hc : wallet.Contains w account = true)
    (herr : (driverSign account tx chainID).2.2 = none) :
    ((driverSign account tx chainID).1 ≠ account.address →
      wallet.SignTx Tx w driverSign account tx chainID =
        (none, some (Err.signerMismatch account.address
          (driverSign account tx chainID).1))) ∧
    ((driverSign account tx chainID).1 = account.address →
      wallet.SignTx Tx w driverSign account tx chainID =
        ((driverSign account tx chainID).2.1, none)) := by
  rcases hd : driverSign account tx chainID with ⟨sender, signedTx, err⟩
  rw [hd] at herr
  simp only at herr
  subst herr
  constructor
  · intro hne
    simp only at hne
    simp [wallet.SignTx, hc, hd, hne]
  · intro heq
    simp only at heq
    simp [wallet.SignTx, hc, hd, heq]

/-- Witness for C1 at a concrete wallet and driver: the account `[1]` is
cached, the driver signs without error but reports signer `[2]`, and
`SignTx` discards the signed transaction and fails with the mismatch
error. -/
theorem signTx_signer_mismatch_guard_witness :
    wallet.SignTx Nat ⟨[⟨[1]⟩], some [], true⟩
      (fun _ _ _ => ([2], some 42, none)) ⟨[1]⟩ 5 1 =
      (none, some (Err.signerMismatch [1] [2])) :=
  (signTx_signer_mismatch_guard Nat ⟨[⟨[1]⟩], some [], true⟩
    (fun _ _ _ => ([2], some 42, none)) ⟨[1]⟩ 5 1 (by decide) rfl).1 (by decide)

/-- C2: for every wallet and every account whose address is not byte-equal
to any cached entry, `wallet.SignTx` returns `ErrUnknownAccount` and no
transaction — and the result is this for every driver sign function alike,
which is how the embedding expresses that the driver's sign operation is
never invoked on this path. -/
theorem signTx_unknown_account (Tx : Type) (w : WalletState) (account : Account)
    (h : ∀ acct ∈ w.accounts, acct.address ≠ account.address)
    (driverSign : Account → Tx → Int → Address × Option Tx × Option Err)
    (tx : Tx) (chainID : Int) :
    wallet.SignTx Tx w driverSign account tx chainID =
      (none, some Err.unknownAccount) := by
  have hc : wallet.Contains w account = false := by
    simp only [wallet.Contains, List.any_eq_false, decide_eq_true_eq]
    exact h
  simp [wallet.SignTx, hc]

/-- Witness for C2: the cache holds only address `[1]`; signing for
address `[2]` fails with `ErrUnknownAccount` even though the driver would
happily sign. -/
theorem signTx_unknown_account_witness :
    wallet.SignTx Nat ⟨[⟨[1]⟩], some [], true⟩
      (fun a _ _ => (a.address, some 42, none)) ⟨[2]⟩ 5 1 =
      (none, some Err.unknownAccount) :=
  signTx_unknown_account Nat ⟨[⟨[1]⟩], some [], true⟩ ⟨[2]⟩ (by decide)
    (fun a _ _ => (a.address, some 42, none)) 5 1

/-- C3: for every wallet, `wallet.Open` fails with `ErrWalletAlreadyOpen`
leaving the state untouched exactly when the paths map is non-nil (the
equivalence is stated for driver results other than that same sentinel,
which the wallet's own guard is the only source of); and when the paths map
is nil and the driver's open fails, `Open` propagates that error with the
state — in particular `paths` and `healthQuit` — unchanged, so a wallet
that was Closed stays Closed and a subsequent `Open` attempt against a
succeeding driver opens it. -/
theorem open_already_open_and_retryable (w : WalletState) (dOpen : Option Err)
    (hsentinel : dOpen ≠ some Err.alreadyOpen) :
    (wallet.Open w dOpen = (w, some Err.alreadyOpen) ↔ w.paths.isSome = true) ∧
    (∀ e, w.paths = none → dOpen = some e →
      wallet.Open w dOpen = (w, some e)) ∧
    (∀ e, w.paths = none →
      (wallet.Open w (some e)).1.paths = none ∧
      (wallet.Open w (some e)).1.healthQuit = w.healthQuit ∧
      (wallet.Open (wallet.Open w (some e)).1 none).2 = none) := by
  refine ⟨⟨fun hfail => ?_, fun hopen => ?_⟩, fun e hnil hdrv => ?_, fun e hnil => ?_⟩
  · by_contra hne
    have hnone : w.paths = none := by
      cases hp : w.paths with
      | none => rfl
      | some v => exact absurd (by simp [hp]) hne
    rcases dOpen with _ | e
    · simp [wallet.Open, hnone] at hfail
    · simp [wallet.Open, hnone] at hfail
      exact hsentinel (by rw [hfail])
  · simp [wallet.Open, hopen]
  · subst hdrv
    simp [wallet.Open, hnil]
  · simp [wallet.Open, hnil]

/-- Witness for C3 at a Closed wallet: a failed driver open propagates the
transport error and leaves `paths` and `healthQuit` nil, and retrying with
a succeeding driver opens the wallet. -/
theorem open_already_open_and_retryable_witness :
    wallet.Open ⟨[], none, false⟩ (some (Err.transport 7)) =
      (⟨[], none, false⟩, some (Err.transport 7)) ∧
    (wallet.Open (wallet.Open ⟨[], none, false⟩
      (some (Err.transport 7))).1 none).2 = none :=
  ⟨(open_already_open_and_retryable ⟨[], none, false⟩ (some (Err.transport 7))
      (by decide)).2.1 (Err.transport 7) rfl rfl,
   ((open_already_open_and_retryable ⟨[], none, false⟩ (some (Err.transport 7))
      (by decide)).2.2 (Err.transport 7) rfl).2.2⟩

/-- C4: `wallet.Close` returns at most one error value; the internal
teardown `wallet.close` unconditionally clears the account list and the
paths map and returns no error whatever the driver's close result, and
since the teardown error (which would take priority) is always nil,
`Close`'s return value is the heartbeat's reported error when a heartbeat
was running and that error is non-nil, and nil otherwise. -/
theorem close_error_aggregation (w : WalletState)
    (heartbeatReply driverClose : Option Err) :
    (wallet.closeInternal w driverClose).1.accounts = [] ∧
    (wallet.closeInternal w driverClose).1.paths = none ∧
    (wallet.closeInternal w driverClose).2 = none ∧
    (wallet.Close w heartbeatReply driverClose).2 =
      (if w.healthQuit then heartbeatReply else none) := by
  refine ⟨rfl, rfl, rfl, ?_⟩
  simp [wallet.Close, wallet.closeInternal]

/-- C5: for every registry state, a refresh whose elapsed time since the
last refresh is under `refreshThrottling` (500 time units) is a no-op —
wallet list, timestamp and event feed untouched; past the window the
last-refresh timestamp is stamped to `now` unconditionally (whether or not
a wallet was created); hence a second call within 500 units of a
successful scan is again a no-op, so two `Wallets()` calls in the window
trigger at most one scan. -/
theorem refreshWallets_throttle (r : RegistryState) (now now2 : Nat) :
    (now - r.refreshed < refreshThrottling →
      RemoteWallet.refreshWallets r now = r) ∧
    (refreshThrottling ≤ now - r.refreshed →
      (RemoteWallet.refreshWallets r now).refreshed = now) ∧
    (refreshThrottling ≤ now - r.refreshed → now2 - now < refreshThrottling →
      RemoteWallet.refreshWallets (RemoteWallet.refreshWallets r now) now2 =
        RemoteWallet.refreshWallets r now) := by
  refine ⟨fun hlt => ?_, fun hge => ?_, fun hge hlt2 => ?_⟩
  · simp [RemoteWallet.refreshWallets, hlt]
  · rw [RemoteWallet.refreshWallets]
    simp [Nat.not_lt.mpr hge]
  · have hstamp : (RemoteWallet.refreshWallets r now).refreshed = now := by
      rw [RemoteWallet.refreshWallets]
      simp [Nat.not_lt.mpr hge]
    rw [RemoteWallet.refreshWallets]
    simp [hstamp, hlt2]

/-- Witness for C5: a registry last refreshed at instant 0, scanned at
instant 600 and queried again at 700, keeps the state of the first scan,
and a query at instant 100 is a no-op. -/
theorem refreshWallets_throttle_witness :
    RemoteWallet.refreshWallets
      ⟨RemoteWalletScheme, VeriteemSigningServer, 0, [], [], false, 0⟩ 100 =
      ⟨RemoteWalletScheme, VeriteemSigningServer, 0, [], [], false, 0⟩ ∧
    (RemoteWallet.refreshWallets
      ⟨RemoteWalletScheme, VeriteemSigningServer, 0, [], [], false, 0⟩
      600).refreshed = 600 ∧
    RemoteWallet.refreshWallets (RemoteWallet.refreshWallets
      ⟨RemoteWalletScheme, VeriteemSigningServer, 0, [], [], false, 0⟩ 600) 700 =
    RemoteWallet.refreshWallets
      ⟨RemoteWalletScheme, VeriteemSigningServer, 0, [], [], false, 0⟩ 600 :=
  ⟨(refreshWallets_throttle
      ⟨RemoteWalletScheme, VeriteemSigningServer, 0, [], [], false, 0⟩
      100 700).1 (by decide),
   (refreshWallets_throttle
      ⟨RemoteWalletScheme, VeriteemSigningServer, 0, [], [], false, 0⟩
      600 700).2.1 (by decide),
   (refreshWallets_throttle
      ⟨RemoteWalletScheme, VeriteemSigningServer, 0, [], [], false, 0⟩
      600 700).2.2 (by decide) (by decide)⟩

/-- C6: for every registry with an empty tracked list and an elapsed
throttle window, whose configured signing-service address is the module's
`VeriteemSigningServer` (as `NewVeriteemWallet` configures it), `Wallets()`
returns exactly one wallet whose URL scheme is the registry's configured
scheme and whose URL path is the configured signing-service address, and
publishes exactly one `Arrived` event for that wallet on the feed. -/
theorem wallets_empty_creates_one (r : RegistryState) (now : Nat)
    (hempty : r.wallets = [])
    (helapsed : refreshThrottling ≤ now - r.refreshed)
    (hurl : r.serverURL = VeriteemSigningServer) :
    (RemoteWallet.Wallets r now).2 =
      [{ urlScheme := r.scheme, urlPath := r.serverURL }] ∧
    (RemoteWallet.Wallets r now).1.sentEvents = r.sentEvents ++
      [{ wallet := { urlScheme := r.scheme, urlPath := r.serverURL },
         kind := EventKind.arrived }] := by
  rw [hurl]
  constructor
  · rw [RemoteWallet.Wallets]
    simp [RemoteWallet.refreshWallets, Nat.not_lt.mpr helapsed, hempty]
  · rw [RemoteWallet.Wallets]
    simp [RemoteWallet.refreshWallets, Nat.not_lt.mpr helapsed, hempty]

/-- Witness for C6: a fresh registry with no wallet, queried at instant
600, yields the single remote wallet and one `Arrived` event. -/
theorem wallets_empty_creates_one_witness :
    (RemoteWallet.Wallets
      ⟨RemoteWalletScheme, VeriteemSigningServer, 0, [], [], false, 0⟩ 600).2 =
      [⟨RemoteWalletScheme, VeriteemSigningServer⟩] ∧
    (RemoteWallet.Wallets
      ⟨RemoteWalletScheme, VeriteemSigningServer, 0, [], [], false, 0⟩
      600).1.sentEvents =
      [] ++ [⟨⟨RemoteWalletScheme, VeriteemSigningServer⟩, EventKind.arrived⟩] :=
  wallets_empty_creates_one
    ⟨RemoteWalletScheme, VeriteemSigningServer, 0, [], [], false, 0⟩ 600
    rfl (by decide) rfl

/-- `refreshWallets` never touches the `updating` flag or the subscription
count: the scan only rewrites the wallet list, the timestamp and the feed
log. -/
theorem refreshWallets_preserves_loop_flags (r : RegistryState) (now : Nat) :
    (RemoteWallet.refreshWallets r now).updating = r.updating ∧
    (RemoteWallet.refreshWallets r now).subscriberCount = r.subscriberCount := by
  rw [RemoteWallet.refreshWallets]
  by_cases hlt : now - r.refreshed < refreshThrottling
  · simp [hlt]
  · simp [hlt]

/-- C7: in every registry state reachable from construction through the
lock-serialized transitions (`Subscribe`, subscription cancellation, and
updater-loop iterations), at most one updater task is alive, and the
`updating` flag is true exactly while one is: `Subscribe` spawns an
updater only when `updating` is false (setting it true in the same locked
section), and an updater terminates only in the locked section that clears
`updating` upon seeing a zero live-subscriber count. -/
theorem updater_exclusive_invariant (s : RegConc) (h : RegReachable s) :
    s.alive ≤ 1 ∧ (s.reg.updating = true ↔ s.alive = 1) := by
  induction h with
  | init reg0 hu hs => simp [hu]
  | step u t hs hstep ih =>
    cases hstep with
    | subscribeStart hu =>
      have halive : u.alive = 0 := by
        rcases Nat.lt_or_ge u.alive 1 with h1 | h1
        · omega
        · exact absurd (ih.2.mpr (by omega)) (by simp [hu])
      simp [halive]
    | subscribeRunning hu =>
      exact ⟨ih.1, by simpa [hu] using ih.2⟩
    | unsubscribe hpos =>
      exact ⟨ih.1, by simpa using ih.2⟩
    | updaterContinue now hpos hcnt =>
      refine ⟨ih.1, ?_⟩
      rw [(refreshWallets_preserves_loop_flags u.reg now).1]
      exact ih.2
    | updaterStop now hpos hcnt =>
      have halive : u.alive = 1 := Nat.le_antisymm ih.1 hpos
      simp [halive]

/-- Witness for C7 at the freshly constructed registry: no updater task is
alive and `updating` is false. -/
theorem updater_exclusive_invariant_witness :
    (⟨⟨RemoteWalletScheme, VeriteemSigningServer, 0, [], [], false, 0⟩, 0⟩ :
      RegConc).alive ≤ 1 ∧
    ((⟨⟨RemoteWalletScheme, VeriteemSigningServer, 0, [], [], false, 0⟩, 0⟩ :
      RegConc).reg.updating = true ↔
     (⟨⟨RemoteWalletScheme, VeriteemSigningServer, 0, [], [], false, 0⟩, 0⟩ :
      RegConc).alive = 1) :=
  updater_exclusive_invariant
    ⟨⟨RemoteWalletScheme, VeriteemSigningServer, 0, [], [], false, 0⟩, 0⟩
    (RegReachable.init _ rfl rfl)

/-- On any stimulus list whose prefix holds no termination request, the
heartbeat loop reaches the first termination request and replies `nil`
exactly once, ignoring everything queued after it and reaching a final
wallet state that depends only on the prefix. -/
theorem heartbeat_replies_at_first_quit (pre : List wallet.HbInput)
    (hnoquit : ∀ i ∈ pre, i ≠ wallet.HbInput.quitReq) (w : WalletState) :
    ∃ w1, ∀ rest, wallet.heartbeat w (pre ++ wallet.HbInput.quitReq :: rest) =
      wallet.HbOutcome.replied w1 none := by
  induction pre generalizing w with
  | nil => exact ⟨w, fun rest => rfl⟩
  | cons i pre ih =>
    match i with
    | wallet.HbInput.quitReq =>
      exact absurd rfl (hnoquit wallet.HbInput.quitReq (by simp))
    | wallet.HbInput.tick none =>
      obtain ⟨w1, hw1⟩ := ih (fun j hj => hnoquit j (by simp [hj])) w
      exact ⟨w1, fun rest => hw1 rest⟩
    | wallet.HbInput.tick (some e) =>
      obtain ⟨w1, hw1⟩ := ih (fun j hj => hnoquit j (by simp [hj]))
        (wallet.closeInternal w none).1
      exact ⟨w1, fun rest => hw1 rest⟩

/-- C8: for every open wallet, after any run of heartbeat cycles with no
earlier termination request, the termination request makes the heartbeat
task reply exactly once with the last error value it tracks — `nil` in the
current control flow — and exit, ignoring later stimuli; and `Close`,
which blocks on that reply, then proceeds to the exclusive teardown of the
state the task left behind and itself returns no error. -/
theorem heartbeat_handshake_reply_once (w : WalletState)
    (pre rest : List wallet.HbInput) (driverClose : Option Err)
    (hq : w.healthQuit = true)
    (hnoquit : ∀ i ∈ pre, i ≠ wallet.HbInput.quitReq) :
    ∃ w1, wallet.heartbeat w (pre ++ wallet.HbInput.quitReq :: rest) =
        wallet.HbOutcome.replied w1 none ∧
      wallet.CloseRun w pre driverClose =
        some ({ w1 with healthQuit := false, accounts := [], paths := none },
          none) := by
  obtain ⟨w1, hw1⟩ := heartbeat_replies_at_first_quit pre hnoquit w
  refine ⟨w1, hw1 rest, ?_⟩
  rw [wallet.CloseRun]
  simp only [hq, if_true]
  rw [hw1 []]
  simp [wallet.closeInternal]

/-- Witness for C8: an open wallet that saw one failing heartbeat cycle
before the termination request; the task replies `nil` once and `Close`
finishes the teardown with no error. -/
theorem heartbeat_handshake_reply_once_witness :
    ∃ w1, wallet.heartbeat ⟨[⟨[1]⟩], some [], true⟩
        ([wallet.HbInput.tick (some (Err.transport 3))] ++
          wallet.HbInput.quitReq :: [wallet.HbInput.tick none]) =
        wallet.HbOutcome.replied w1 none ∧
      wallet.CloseRun ⟨[⟨[1]⟩], some [], true⟩
        [wallet.HbInput.tick (some (Err.transport 3))] none =
        some ({ w1 with healthQuit := false, accounts := [], paths := none },
          none) :=
  heartbeat_handshake_reply_once ⟨[⟨[1]⟩], some [], true⟩
    [wallet.HbInput.tick (some (Err.transport 3))]
    [wallet.HbInput.tick none] none rfl (by decide)

/-- C9: for every account, transaction and chain id (and every behavior of
the JSON/transport collaborators), whenever `VeriteemDriver.SignTx`
returns without error the signer address it reports is exactly the
requested account's address; consequently, whenever this driver's sign
succeeds, `wallet.SignTx` backed by it never produces the signer-mismatch
error. -/
theorem veriteemDriver_signTx_sender (Tx : Type)
    (env : VeriteemDriver.SignEnv Tx) (account : Account) (tx : Tx)
    (chainID : Int) (w : WalletState) :
    ((VeriteemDriver.SignTx Tx env account tx chainID).2.2 = none →
      (VeriteemDriver.SignTx Tx env account tx chainID).1 = account.address) ∧
    ((VeriteemDriver.SignTx Tx env account tx chainID).2.2 = none →
      ∀ exp got, (wallet.SignTx Tx w
          (fun a t c => VeriteemDriver.SignTx Tx env a t c)
          account tx chainID).2 ≠ some (Err.signerMismatch exp got)) := by
  have hcase :
      (VeriteemDriver.SignTx Tx env account tx chainID).2.2 = none →
      (VeriteemDriver.SignTx Tx env account tx chainID).1 = account.address := by
    intro hok
    cases hm : env.marshalReq account tx chainID with
    | error e => simp [VeriteemDriver.SignTx, hm] at hok
    | ok payload =>
      cases hs : env.serverSign payload with
      | error e => simp [VeriteemDriver.SignTx, hm, hs] at hok
      | ok resp =>
        cases hu : env.unmarshalRx resp with
        | error e => simp [VeriteemDriver.SignTx, hm, hs, hu] at hok
        | ok rx =>
          cases ht : env.txUnmarshal tx (env.marshalSigned rx tx chainID) with
          | error e => simp [VeriteemDriver.SignTx, hm, hs, hu, ht] at hok
          | ok stx => simp [VeriteemDriver.SignTx, hm, hs, hu, ht]
  refine ⟨hcase, fun hok exp got => ?_⟩
  rw [wallet.SignTx]
  by_cases hc : wallet.Contains w account = false
  · simp [hc]
  · simp only [hc, if_false]
    rcases hd : VeriteemDriver.SignTx Tx env account tx chainID
      with ⟨sender, signedTx, err⟩
    have hsender : sender = account.address := by
      have := hcase hok
      rw [hd] at this
      exact this
    have herr : err = none := by
      rw [hd] at hok
      exact hok
    subst hsender herr
    simp

/-- Witness for C9 with all collaborators succeeding: the driver reports
the requested account `[1]` as signer and the wallet accepts the signed
transaction. -/
theorem veriteemDriver_signTx_sender_witness :
    ((VeriteemDriver.SignTx Nat
        ⟨fun _ _ _ => Except.ok [], fun _ => Except.ok [],
         fun _ => Except.ok ⟨"", "", "", ""⟩, fun _ _ _ => [],
         fun _ _ => Except.ok 7⟩ ⟨[1]⟩ 5 1).2.2 = none →
      (VeriteemDriver.SignTx Nat
        ⟨fun _ _ _ => Except.ok [], fun _ => Except.ok [],
         fun _ => Except.ok ⟨"", "", "", ""⟩, fun _ _ _ => [],
         fun _ _ => Except.ok 7⟩ ⟨[1]⟩ 5 1).1 = Account.address ⟨[1]⟩) ∧
    ((VeriteemDriver.SignTx Nat
        ⟨fun _ _ _ => Except.ok [], fun _ => Except.ok [],
         fun _ => Except.ok ⟨"", "", "", ""⟩, fun _ _ _ => [],
         fun _ _ => Except.ok 7⟩ ⟨[1]⟩ 5 1).2.2 = none →
      ∀ exp got, (wallet.SignTx Nat ⟨[⟨[1]⟩], some [], true⟩
          (fun a t c => VeriteemDriver.SignTx Nat
            ⟨fun _ _ _ => Except.ok [], fun _ => Except.ok [],
             fun _ => Except.ok ⟨"", "", "", ""⟩, fun _ _ _ => [],
             fun _ _ => Except.ok 7⟩ a t c) ⟨[1]⟩ 5 1).2 ≠
        some (Err.signerMismatch exp got)) :=
  veriteemDriver_signTx_sender Nat
    ⟨fun _ _ _ => Except.ok [], fun _ => Except.ok [],
     fun _ => Except.ok ⟨"", "", "", ""⟩, fun _ _ _ => [],
     fun _ _ => Except.ok 7⟩ ⟨[1]⟩ 5 1 ⟨[⟨[1]⟩], some [], true⟩

/-- C10: `VeriteemDriver.Heartbeat` always returns `nil` and leaves the
driver untouched, because `ledgerVersion` is a stub returning version
`(1, 0, 0)` with no error; consequently a wallet heartbeat loop fed by
this driver's heartbeat results never takes the self-closing teardown
branch and leaves the wallet state as it found it. -/
theorem veriteemDriver_heartbeat_always_nil (d : VeriteemDriverState)
    (w : WalletState) (n : Nat) :
    VeriteemDriver.ledgerVersion d = ((1, 0, 0), none) ∧
    VeriteemDriver.Heartbeat d = (d, none) ∧
    wallet.heartbeat w
      (List.replicate n (wallet.HbInput.tick (VeriteemDriver.Heartbeat d).2)) =
      wallet.HbOutcome.running w := by
  refine ⟨rfl, rfl, ?_⟩
  have hnil : (VeriteemDriver.Heartbeat d).2 = none := rfl
  rw [hnil]
  induction n with
  | zero => rfl
  | succ n ih => simpa [List.replicate_succ, wallet.heartbeat] using ih

end Veriteem
